import Mathlib

/-!
Verification of the spaced-repetition scheduling and progress-tracking
core of Nippon (src/Nippon.py): the SM-2 scheduler (SRSSystem.review_card),
the progress store (ProgressManager: get_due_items, update_streak,
add_achievement, increment_stat, import_from_file, _migrate_data).

Modelling conventions:
- Python floats (the ease factor) are modelled as exact rationals.
- Dates (ISO YYYY-MM-DD strings, compared lexicographically in the code,
  which for ISO dates agrees with chronological order) are modelled as
  integers counting days; adding a timedelta of d days is integer addition.
- The value of datetime.now() read inside a call is passed as an explicit
  today argument.
- Python int() applied to a float truncates toward zero; pyInt models this
  on rationals.
- The JSON store is modelled twice: Store is the fully-populated shape that
  _migrate_data guarantees after a load; RawStore (every section optional)
  is the shape of arbitrary file contents, as import_from_file installs
  them without migration.
-/

namespace Nippon

/-- Python int() on a float value: truncation toward zero. -/
def pyInt (q : ℚ) : ℤ := if 0 ≤ q then ⌊q⌋ else ⌈q⌉

/-- The SRSCard dataclass of src/Nippon.py (fields ease, interval,
repetitions, last review, next review, wrong count). -/
structure SRSCard where
  ease : ℚ
  interval : ℤ
  repetitions : ℤ
  last_review : Option ℤ
  next_review : Option ℤ
  wrong_count : ℤ
deriving DecidableEq, Repr

/-- Dataclass defaults: ease 2.5, interval 1, repetitions 0, no review
dates, wrong count 0. -/
def defaultCard : SRSCard :=
  { ease := 2.5, interval := 1, repetitions := 0,
    last_review := none, next_review := none, wrong_count := 0 }

/-- SRSSystem.review_card. quality below 3 is a failed review: repetitions
reset to 0, interval 1, wrong count incremented, ease untouched. Otherwise
the interval is computed from the pre-update repetitions (0 gives 1,
1 gives 6, otherwise int(interval * ease)), repetitions is incremented and
the ease updated with the SM-2 formula floored at 1.3. In both branches
last review is set to today and next review to today plus the new
interval. The function performs no validation of quality. -/
def review_card (card : SRSCard) (quality : ℤ) (today : ℤ) : SRSCard :=
  let card := { card with last_review := some today }
  let card :=
    if quality < 3 then
      { card with repetitions := 0, interval := 1,
                  wrong_count := card.wrong_count + 1 }
    else
      let newInterval : ℤ :=
        if card.repetitions = 0 then 1
        else if card.repetitions = 1 then 6
        else pyInt ((card.interval : ℚ) * card.ease)
      { card with
          interval := newInterval,
          repetitions := card.repetitions + 1,
          ease := max 1.3 (card.ease +
            ((0.1 : ℚ) - ((5 : ℚ) - (quality : ℚ)) *
              ((0.08 : ℚ) + ((5 : ℚ) - (quality : ℚ)) * (0.02 : ℚ)))) }
  { card with next_review := some (today + card.interval) }

/-- The settings object of the default structure. -/
structure Settings where
  theme : String
  layout : String
  sound : Bool
  test_type : String
  srs_interval : ℤ
deriving DecidableEq, Repr

/-- Default settings from ProgressManager dot default-structure. -/
def defaultSettings : Settings :=
  { theme := "Sakura Bliss", layout := "Desktop", sound := true,
    test_type := "typing", srs_interval := 1 }

/-- The stats object of the default structure. -/
structure Stats where
  total_reviews : ℤ
  reviews_today : ℤ
  correct_streak : ℤ
  max_streak : ℤ
deriving DecidableEq, Repr

/-- Default stats: all four counters zero. -/
def defaultStats : Stats :=
  { total_reviews := 0, reviews_today := 0,
    correct_streak := 0, max_streak := 0 }

/-- A category map: item key to stored card data, in insertion order. -/
abbrev CategoryMap := List (String × SRSCard)

/-- The fully-populated progress store, the shape _migrate_data
guarantees after every load. -/
structure Store where
  streak : ℤ
  last_date : ℤ
  achievements : List String
  settings : Settings
  kana : CategoryMap
  vocab : CategoryMap
  grammar : CategoryMap
  kanji : CategoryMap
  stats : Stats
deriving DecidableEq, Repr

/-- ProgressManager dot default-structure, with last date the creation
day. -/
def defaultStructure (today : ℤ) : Store :=
  { streak := 0, last_date := today, achievements := [],
    settings := defaultSettings,
    kana := [], vocab := [], grammar := [], kanji := [],
    stats := defaultStats }

/-- Access to a category map by the category name key (the code does
self.data[category]; the four category keys always exist after
migration). -/
def Store.getCategory (s : Store) (category : String) : CategoryMap :=
  if category = "kana" then s.kana
  else if category = "vocab" then s.vocab
  else if category = "grammar" then s.grammar
  else if category = "kanji" then s.kanji
  else []

/-- The due test of get_due_items on one stored card: due when next
review is absent (a new card) or when next review is on or before
today. -/
def isDue (card : SRSCard) (today : ℤ) : Bool :=
  match card.next_review with
  | some nr => nr ≤ today
  | none => true

/-- ProgressManager.get_due_items: the keys of the category map whose
cards are due today, in map order. -/
def get_due_items (entries : CategoryMap) (today : ℤ) : List String :=
  (entries.filter (fun e => isDue e.2 today)).map Prod.fst

/-- ProgressManager.add_achievement: append the id if not already held;
returns true exactly on a new unlock. -/
def add_achievement (s : Store) (id : String) : Bool × Store :=
  if id ∈ s.achievements then (false, s)
  else (true, { s with achievements := s.achievements ++ [id] })

/-- ProgressManager.update_streak at date today: same-day calls return
the streak unchanged; on a day transition the streak is incremented when
the last active date was yesterday and reset to 1 otherwise, the last
active date becomes today, reviews today is reset to 0, and a streak of
7 or more unlocks the week streak achievement. Returns the streak and
the updated store. -/
def update_streak (s : Store) (today : ℤ) : ℤ × Store :=
  if s.last_date = today then (s.streak, s)
  else
    let newStreak : ℤ := if s.last_date = today - 1 then s.streak + 1 else 1
    let s1 : Store :=
      { s with streak := newStreak, last_date := today,
               stats := { s.stats with reviews_today := 0 } }
    let s2 : Store :=
      if 7 ≤ s1.streak then (add_achievement s1 "week_streak").2 else s1
    (s2.streak, s2)

/-- ProgressManager.increment_stat: add the amount to the named counter
when the name is one of the four stat keys, otherwise do nothing. -/
def increment_stat (s : Store) (name : String) (amount : ℤ) : Store :=
  if name = "total_reviews" then
    { s with stats := { s.stats with
        total_reviews := s.stats.total_reviews + amount } }
  else if name = "reviews_today" then
    { s with stats := { s.stats with
        reviews_today := s.stats.reviews_today + amount } }
  else if name = "correct_streak" then
    { s with stats := { s.stats with
        correct_streak := s.stats.correct_streak + amount } }
  else if name = "max_streak" then
    { s with stats := { s.stats with
        max_streak := s.stats.max_streak + amount } }
  else s

/-- A settings object as found in an arbitrary JSON file: every key may
be absent. -/
structure RawSettings where
  theme : Option String
  layout : Option String
  sound : Option Bool
  test_type : Option String
  srs_interval : Option ℤ
deriving DecidableEq, Repr

/-- A stats object as found in an arbitrary JSON file: every key may be
absent. -/
structure RawStats where
  total_reviews : Option ℤ
  reviews_today : Option ℤ
  correct_streak : Option ℤ
  max_streak : Option ℤ
deriving DecidableEq, Repr

/-- A progress file as found on disk: every top-level section may be
absent. -/
structure RawStore where
  streak : Option ℤ
  last_date : Option ℤ
  achievements : Option (List String)
  settings : Option RawSettings
  kana : Option CategoryMap
  vocab : Option CategoryMap
  grammar : Option CategoryMap
  kanji : Option CategoryMap
  stats : Option RawStats
deriving DecidableEq, Repr

/-- Migration of the settings section: an absent section becomes the
default settings; in a present section each absent key is filled from the
defaults, present values preserved. -/
def migrateSettings (r : Option RawSettings) : Settings :=
  match r with
  | none => defaultSettings
  | some rs =>
    { theme := rs.theme.getD defaultSettings.theme,
      layout := rs.layout.getD defaultSettings.layout,
      sound := rs.sound.getD defaultSettings.sound,
      test_type := rs.test_type.getD defaultSettings.test_type,
      srs_interval := rs.srs_interval.getD defaultSettings.srs_interval }

/-- Migration of the stats section: an absent section becomes the default
stats; in a present section each absent key is filled from the defaults. -/
def migrateStats (r : Option RawStats) : Stats :=
  match r with
  | none => defaultStats
  | some rs =>
    { total_reviews := rs.total_reviews.getD defaultStats.total_reviews,
      reviews_today := rs.reviews_today.getD defaultStats.reviews_today,
      correct_streak := rs.correct_streak.getD defaultStats.correct_streak,
      max_streak := rs.max_streak.getD defaultStats.max_streak }

/-- ProgressManager migrate-data at load time: every absent top-level key
is filled from the default structure (today being the load day), the
settings and stats sections are filled key by key, an absent achievements
list becomes empty, and absent category maps become empty. -/
def migrate_data (raw : RawStore) (today : ℤ) : Store :=
  { streak := raw.streak.getD 0,
    last_date := raw.last_date.getD today,
    achievements := raw.achievements.getD [],
    settings := migrateSettings raw.settings,
    kana := raw.kana.getD [],
    vocab := raw.vocab.getD [],
    grammar := raw.grammar.getD [],
    kanji := raw.kanji.getD [],
    stats := migrateStats raw.stats }

/-- ProgressManager.import_from_file: the in-memory data becomes exactly
the file contents, with no merge and no migration, and is then saved. -/
def import_from_file (_curr : RawStore) (fileContents : RawStore) : RawStore :=
  fileContents

/-- A card a caller could supply with a zero interval. -/
def zeroIntervalCard : SRSCard :=
  { ease := 2.5, interval := 0, repetitions := 2,
    last_review := none, next_review := none, wrong_count := 0 }

/-- A reviewed card due on day 3. -/
def sampleCard : SRSCard := { defaultCard with next_review := some 3 }

/-- A store holding one kana entry. -/
def sampleStore : Store :=
  { defaultStructure 0 with kana := [("あ", sampleCard)] }

/-- A store last active on day 4 with a running streak. -/
def storeYesterday : Store := { defaultStructure 4 with streak := 2 }

/-- A store last active on day 0 with a running streak. -/
def storeGap : Store := { defaultStructure 0 with streak := 5 }

/-- A store last active on day 4 about to reach a week streak. -/
def storeWeek : Store := { defaultStructure 4 with streak := 6 }

/-- An import file containing only a kana mapping, as in the spec
scenario. -/
def kanaOnlyFile : RawStore :=
  { streak := none, last_date := none, achievements := none,
    settings := none, kana := some [("あ", defaultCard)],
    vocab := none, grammar := none, kanji := none, stats := none }

/-- The default settings in raw (all keys present) form. -/
def rawDefaultSettings : RawSettings :=
  { theme := some defaultSettings.theme,
    layout := some defaultSettings.layout,
    sound := some defaultSettings.sound,
    test_type := some defaultSettings.test_type,
    srs_interval := some defaultSettings.srs_interval }

/-- The default stats in raw (all keys present) form. -/
def rawDefaultStats : RawStats :=
  { total_reviews := some 0, reviews_today := some 0,
    correct_streak := some 0, max_streak := some 0 }

/-- A fully-populated raw store, the in-memory data before an import. -/
def rawDefaultStore : RawStore :=
  { streak := some 0, last_date := some 0, achievements := some [],
    settings := some rawDefaultSettings, kana := some [], vocab := some [],
    grammar := some [], kanji := some [], stats := some rawDefaultStats }

/-! Helper lemmas. -/

/-- Truncation agrees with the floor on nonnegative values. -/
theorem pyInt_eq_floor {q : ℚ} (h : 0 ≤ q) : pyInt q = ⌊q⌋ := if_pos h

/-- add_achievement never changes the streak. -/
theorem add_achievement_streak (s : Store) (id : String) :
    (add_achievement s id).2.streak = s.streak := by
  rw [add_achievement]; split_ifs <;> rfl

/-- add_achievement never changes the last active date. -/
theorem add_achievement_last_date (s : Store) (id : String) :
    (add_achievement s id).2.last_date = s.last_date := by
  rw [add_achievement]; split_ifs <;> rfl

/-- add_achievement never changes the stats. -/
theorem add_achievement_stats (s : Store) (id : String) :
    (add_achievement s id).2.stats = s.stats := by
  rw [add_achievement]; split_ifs <;> rfl

/-- After add_achievement the id is held. -/
theorem add_achievement_mem_self (s : Store) (id : String) :
    id ∈ (add_achievement s id).2.achievements := by
  rw [add_achievement]; split_ifs with h
  · exact h
  · simp

/-- In a category map with pairwise distinct keys, a key determines its
card. -/
theorem assoc_unique {l : CategoryMap} (h : (l.map Prod.fst).Nodup)
    {k : String} {d d' : SRSCard} (h1 : (k, d) ∈ l) (h2 : (k, d') ∈ l) :
    d = d' := by
  induction l with
  | nil => simp at h1
  | cons a t ih =>
    rw [List.map_cons, List.nodup_cons] at h
    rcases List.mem_cons.mp h1 with e1 | h1'
    · rcases List.mem_cons.mp h2 with e2 | h2'
      · rw [← e1] at e2
        exact (Prod.mk.injEq _ _ _ _ ▸ e2).2.symm
      · exfalso
        rw [← e1] at h
        have hm := List.mem_map_of_mem Prod.fst h2'
        exact h.1 hm
    · rcases List.mem_cons.mp h2 with e2 | h2'
      · exfalso
        rw [← e2] at h
        have hm := List.mem_map_of_mem Prod.fst h1'
        exact h.1 hm
      · exact ih h.2 h1' h2'

/-- The returned streak always equals the stored streak of the returned
store. -/
theorem update_streak_fst_eq (s : Store) (today : ℤ) :
    (update_streak s today).1 = (update_streak s today).2.streak := by
  rw [update_streak]; split_ifs <;> rfl

/-- After update_streak, either the last active date is today, or the
call was a same-day no-op. -/
theorem update_streak_last_date (s : Store) (today : ℤ) :
    (update_streak s today).2.last_date = today ∨
      ((update_streak s today).2 = s ∧ s.last_date = today) := by
  by_cases h : s.last_date = today
  · right; rw [update_streak, if_pos h]; exact ⟨rfl, h⟩
  · left
    rw [update_streak, if_neg h]
    dsimp only
    split_ifs <;> simp [add_achievement_last_date]

/-- Behaviour of update_streak on a day transition: the streak becomes
the incremented value when the last active date was yesterday and 1
otherwise, both in the returned value and the stored one; the last
active date becomes today; reviews today is reset; and a streak of 7 or
more puts the week streak achievement into the store. -/
theorem update_streak_transition (s : Store) (today : ℤ)
    (hne : s.last_date ≠ today) :
    (update_streak s today).2.streak =
      (if s.last_date = today - 1 then s.streak + 1 else 1) ∧
    (update_streak s today).1 =
      (if s.last_date = today - 1 then s.streak + 1 else 1) ∧
    (update_streak s today).2.last_date = today ∧
    (update_streak s today).2.stats.reviews_today = 0 ∧
    (7 ≤ (if s.last_date = today - 1 then s.streak + 1 else 1) →
      "week_streak" ∈ (update_streak s today).2.achievements) := by
  rw [update_streak, if_neg hne]
  dsimp only
  refine ⟨?_, ?_, ?_, ?_, ?_⟩
  · split_ifs <;> simp [add_achievement_streak]
  · split_ifs <;> simp [add_achievement_streak]
  · split_ifs <;> simp [add_achievement_last_date]
  · split_ifs <;> simp [add_achievement_stats]
  · intro h7
    rw [if_pos h7]
    exact add_achievement_mem_self _ _

/-! Claim theorems. -/

/-- C1: for every card satisfying the data-model invariants (ease at
least 1.3, interval at least 1) and every quality in 3..5, review_card
returns a card whose interval is 1 when repetitions was 0, 6 when it was
1, and the floor of interval times ease otherwise; whose repetitions is
the old value plus one; whose ease is the SM-2 update floored at 1.3;
and whose next review is today plus the new interval. -/
theorem srs_C1_success_update (c : SRSCard) (q today : ℤ)
    (hq3 : 3 ≤ q) (hq5 : q ≤ 5)
    (he : (1.3 : ℚ) ≤ c.ease) (hi : 1 ≤ c.interval) :
    (review_card c q today).interval =
      (if c.repetitions = 0 then 1
       else if c.repetitions = 1 then 6
       else ⌊(c.interval : ℚ) * c.ease⌋) ∧
    (review_card c q today).repetitions = c.repetitions + 1 ∧
    (review_card c q today).ease =
      max 1.3 (c.ease + ((0.1 : ℚ) - ((5 : ℚ) - (q : ℚ)) *
        ((0.08 : ℚ) + ((5 : ℚ) - (q : ℚ)) * (0.02 : ℚ)))) ∧
    (review_card c q today).next_review =
      some (today + (review_card c q today).interval) := by
  have hq : ¬ (q < 3) := by omega
  have h0i : (0 : ℚ) ≤ (c.interval : ℚ) := by
    exact_mod_cast le_trans (by norm_num) hi
  have hprod : (0 : ℚ) ≤ (c.interval : ℚ) * c.ease :=
    mul_nonneg h0i (le_trans (by norm_num) he)
  refine ⟨?_, ?_, ?_, ?_⟩ <;> simp [review_card, hq, pyInt_eq_floor hprod]

/-- C1 witness at a concrete card (interval 10, ease 2.5, repetitions 3)
and quality 4. -/
theorem srs_C1_success_update_witness :
    (review_card { defaultCard with interval := 10, repetitions := 3 } 4 100).repetitions
      = 3 + 1 :=
  (srs_C1_success_update { defaultCard with interval := 10, repetitions := 3 }
    4 100 (by norm_num) (by norm_num) (by norm_num [defaultCard]) (by norm_num)).2.1

/-- C2: for every card and every quality in 0..2, review_card resets
repetitions to 0 and the interval to 1, increments the wrong count,
leaves the ease unchanged, sets last review to today and next review to
today plus one day. -/
theorem srs_C2_failure_update (c : SRSCard) (q today : ℤ)
    (h0 : 0 ≤ q) (h2 : q ≤ 2) :
    review_card c q today =
      { c with repetitions := 0, interval := 1,
               wrong_count := c.wrong_count + 1,
               last_review := some today,
               next_review := some (today + 1) } := by
  have hq : q < 3 := by omega
  cases c
  simp [review_card, hq]

/-- C2 witness at the default card with quality 1. -/
theorem srs_C2_failure_update_witness :
    review_card defaultCard 1 0 =
      { defaultCard with
          repetitions := 0, interval := 1,
          wrong_count := defaultCard.wrong_count + 1,
          last_review := some 0, next_review := some (0 + 1) } :=
  srs_C2_failure_update defaultCard 1 0 (by norm_num) (by norm_num)

/-- C3 counterexample: called with quality 6, outside 0..5, review_card
does not fail and does not leave the card unchanged: it takes the
success branch, incrementing repetitions and raising the ease to 2.66. -/
theorem srs_C3_counterexample :
    (review_card defaultCard 6 0).repetitions = 1 ∧
    (review_card defaultCard 6 0).ease = 2.66 ∧
    review_card defaultCard 6 0 ≠ defaultCard := by
  refine ⟨?_, ?_, ?_⟩
  · norm_num [review_card, defaultCard]
  · norm_num [review_card, defaultCard]
  · intro h
    have h2 := congrArg SRSCard.repetitions h
    norm_num [review_card, defaultCard] at h2

/-- C3 (amended): review_card performs no validation of quality at all;
every integer quality is processed, qualities below 3 through the
failure branch and qualities of 3 or more (including values above 5)
through the success branch. -/
theorem srs_C3_no_validation (c : SRSCard) (q today : ℤ) :
    (q < 3 → (review_card c q today).repetitions = 0 ∧
             (review_card c q today).interval = 1 ∧
             (review_card c q today).wrong_count = c.wrong_count + 1) ∧
    (3 ≤ q → (review_card c q today).repetitions = c.repetitions + 1 ∧
             (review_card c q today).wrong_count = c.wrong_count) := by
  constructor
  · intro hq; simp [review_card, hq]
  · intro hq
    have hq' : ¬ (q < 3) := by omega
    simp [review_card, hq']

/-- C3 (amended) witness at the out-of-range qualities 6 and -1. -/
theorem srs_C3_no_validation_witness :
    (review_card defaultCard 6 0).repetitions = defaultCard.repetitions + 1 ∧
    (review_card defaultCard (-1) 0).interval = 1 :=
  ⟨((srs_C3_no_validation defaultCard 6 0).2 (by norm_num)).1,
   ((srs_C3_no_validation defaultCard (-1) 0).1 (by norm_num)).2.1⟩

/-- C4: in any store and category whose keys are pairwise distinct, a
key of the category map is among the due items exactly when its stored
next review is absent or is on or before today; in particular a key
whose next review is tomorrow is not among them. -/
theorem srs_C4_due_items (s : Store) (category k : String) (card : SRSCard)
    (today : ℤ)
    (hnd : ((s.getCategory category).map Prod.fst).Nodup)
    (hmem : (k, card) ∈ s.getCategory category) :
    (k ∈ get_due_items (s.getCategory category) today ↔
       (card.next_review = none ∨
        ∃ nr, card.next_review = some nr ∧ nr ≤ today)) ∧
    (card.next_review = some (today + 1) →
       k ∉ get_due_items (s.getCategory category) today) := by
  have key : k ∈ get_due_items (s.getCategory category) today ↔
      isDue card today = true := by
    unfold get_due_items
    rw [List.mem_map]
    constructor
    · rintro ⟨⟨k', d⟩, hf, hek⟩
      rcases List.mem_filter.mp hf with ⟨hm, hdue⟩
      subst hek
      have hd : d = card := assoc_unique hnd hm hmem
      rw [← hd]
      exact hdue
    · intro hdue
      exact ⟨(k, card), List.mem_filter.mpr ⟨hmem, hdue⟩, rfl⟩
  constructor
  · rw [key]
    cases hnr : card.next_review with
    | none => simp [isDue, hnr]
    | some nr => simp [isDue, hnr]
  · intro hnr hk
    rw [key] at hk
    simp [isDue, hnr] at hk

/-- C4 witness: in the sample store the kana entry due on day 3 is
listed among the due items of day 5. -/
theorem srs_C4_due_items_witness :
    "あ" ∈ get_due_items (sampleStore.getCategory "kana") 5 :=
  (srs_C4_due_items sampleStore "kana" "あ" sampleCard 5
    (by simp [sampleStore, Store.getCategory, defaultStructure])
    (by simp [sampleStore, Store.getCategory, defaultStructure])).1.mpr
    (Or.inr ⟨3, rfl, by norm_num⟩)

/-- C5: update_streak on a day transition increments the streak by
exactly one when the last active date was yesterday, resets it to 1 when
the last active date differs from today by more than one day, always
sets the last active date to today and resets the reviews-today counter,
and puts the week streak achievement into the store whenever the new
streak reaches 7 or more. -/
theorem srs_C5_streak_transition (s : Store) (today : ℤ) :
    (s.last_date = today - 1 →
       (update_streak s today).2.streak = s.streak + 1 ∧
       (update_streak s today).1 = s.streak + 1) ∧
    (1 < today - s.last_date ∨ 1 < s.last_date - today →
       (update_streak s today).2.streak = 1 ∧
       (update_streak s today).1 = 1) ∧
    (s.last_date ≠ today →
       (update_streak s today).2.last_date = today ∧
       (update_streak s today).2.stats.reviews_today = 0) ∧
    (s.last_date ≠ today → 7 ≤ (update_streak s today).2.streak →
       "week_streak" ∈ (update_streak s today).2.achievements) := by
  refine ⟨?_, ?_, ?_, ?_⟩
  · intro hy
    have hne : s.last_date ≠ today := by omega
    have h := update_streak_transition s today hne
    rw [if_pos hy] at h
    exact ⟨h.1, h.2.1⟩
  · intro hgap
    have hne : s.last_date ≠ today := by rcases hgap with h | h <;> omega
    have hy : ¬ (s.last_date = today - 1) := by
      rcases hgap with h | h <;> omega
    have h := update_streak_transition s today hne
    rw [if_neg hy] at h
    exact ⟨h.1, h.2.1⟩
  · intro hne
    have h := update_streak_transition s today hne
    exact ⟨h.2.2.1, h.2.2.2.1⟩
  · intro hne h7
    have h := update_streak_transition s today hne
    apply h.2.2.2.2
    rw [← h.1]
    exact h7

/-- C5 witness: a yesterday store increments, a gapped store resets to
1, and a store reaching a streak of 7 holds the week streak
achievement. -/
theorem srs_C5_streak_transition_witness :
    (update_streak storeYesterday 5).2.streak = storeYesterday.streak + 1 ∧
    (update_streak storeGap 10).2.streak = 1 ∧
    "week_streak" ∈ (update_streak storeWeek 5).2.achievements :=
  ⟨((srs_C5_streak_transition storeYesterday 5).1 (by decide)).1,
   ((srs_C5_streak_transition storeGap 10).2.1 (Or.inl (by decide))).1,
   (srs_C5_streak_transition storeWeek 5).2.2.2 (by decide) (by decide)⟩

/-- C6: update_streak is idempotent per calendar day: with the last
active date already today it returns the current streak and leaves the
store unchanged, and a second call on the same day returns the same
value and the same store as the first. -/
theorem srs_C6_idempotent (s : Store) (today : ℤ) :
    (s.last_date = today → update_streak s today = (s.streak, s)) ∧
    (update_streak (update_streak s today).2 today).1 =
      (update_streak s today).1 ∧
    (update_streak (update_streak s today).2 today).2 =
      (update_streak s today).2 := by
  have hsame : ∀ t : Store, t.last_date = today →
      update_streak t today = (t.streak, t) := by
    intro t ht
    rw [update_streak, if_pos ht]
  refine ⟨hsame s, ?_, ?_⟩
  · rcases update_streak_last_date s today with h | ⟨he, _⟩
    · simp [hsame _ h, update_streak_fst_eq]
    · rw [he]
  · rcases update_streak_last_date s today with h | ⟨he, _⟩
    · simp [hsame _ h]
    · rw [he]
      exact he

/-- C6 witness: a same-day call on the default structure is a no-op. -/
theorem srs_C6_idempotent_witness :
    update_streak (defaultStructure 3) 3 =
      ((defaultStructure 3).streak, defaultStructure 3) :=
  (srs_C6_idempotent (defaultStructure 3) 3).1 rfl

/-- C7 counterexample: importing a file that contains only a kana
mapping yields an in-memory store with no settings, stats or
achievements sections at all (the code stores the file contents without
migration), not one populated with the defaults. -/
theorem srs_C7_counterexample :
    (import_from_file rawDefaultStore kanaOnlyFile).settings = none ∧
    (import_from_file rawDefaultStore kanaOnlyFile).settings
      ≠ some rawDefaultSettings ∧
    (import_from_file rawDefaultStore kanaOnlyFile).stats = none ∧
    (import_from_file rawDefaultStore kanaOnlyFile).achievements = none := by
  refine ⟨rfl, ?_, rfl, rfl⟩
  simp [import_from_file, kanaOnlyFile]

/-- C7 (amended): import replaces the in-memory store wholesale with the
file contents; the defaults for settings, stats and achievements appear
only when the data is next migrated at load time, after which the
supplied kana entry is preserved alongside the default structure. -/
theorem srs_C7_import_replaces (curr file : RawStore) :
    import_from_file curr file = file ∧
    migrate_data kanaOnlyFile 0 =
      { defaultStructure 0 with kana := [("あ", defaultCard)] } :=
  ⟨rfl, rfl⟩

/-- C8 counterexample: a caller-supplied card with interval 0 and
repetitions 2 reviewed successfully produces interval 0, violating the
claimed bound. -/
theorem srs_C8_counterexample :
    (review_card zeroIntervalCard 5 0).interval = 0 ∧
    ¬ (1 ≤ (review_card zeroIntervalCard 5 0).interval) := by
  norm_num [review_card, zeroIntervalCard, pyInt]

/-- C8 (amended): for every card satisfying the data-model invariants
(interval at least 1 and ease at least 1.3) and every quality in 0..5,
the interval after review_card is at least 1. -/
theorem srs_C8_interval_positive (c : SRSCard) (q today : ℤ)
    (_h0 : 0 ≤ q) (_h5 : q ≤ 5)
    (hi : 1 ≤ c.interval) (he : (1.3 : ℚ) ≤ c.ease) :
    1 ≤ (review_card c q today).interval := by
  have h1 : (1 : ℚ) ≤ (c.interval : ℚ) := by exact_mod_cast hi
  have he1 : (1 : ℚ) ≤ c.ease := le_trans (by norm_num) he
  have h2 : (1 : ℚ) ≤ (c.interval : ℚ) * c.ease := by
    calc (1 : ℚ) = 1 * 1 := by norm_num
    _ ≤ (c.interval : ℚ) * c.ease :=
        mul_le_mul h1 he1 (by norm_num) (le_trans zero_le_one h1)
  have hfl : 1 ≤ pyInt ((c.interval : ℚ) * c.ease) := by
    rw [pyInt_eq_floor (le_trans zero_le_one h2)]
    exact Int.le_floor.mpr (by exact_mod_cast h2)
  by_cases hq : q < 3
  · simp [review_card, hq]
  · simp [review_card, hq]
    split_ifs with hr0 hr1
    · norm_num
    · norm_num
    · exact hfl

/-- C8 (amended) witness at the default card with quality 5. -/
theorem srs_C8_interval_positive_witness :
    1 ≤ (review_card defaultCard 5 0).interval :=
  srs_C8_interval_positive defaultCard 5 0 (by norm_num) (by norm_num)
    (by norm_num [defaultCard]) (by norm_num [defaultCard])

/-- C9 counterexample: from the default store, where max streak equals
correct streak, increment_stat on the correct-streak counter leaves
correct streak strictly above max streak: increment_stat performs no
reconciliation. -/
theorem srs_C9_counterexample :
    (defaultStructure 0).stats.correct_streak ≤
      (defaultStructure 0).stats.max_streak ∧
    ¬ ((increment_stat (defaultStructure 0) "correct_streak" 1).stats.correct_streak ≤
       (increment_stat (defaultStructure 0) "correct_streak" 1).stats.max_streak) := by
  constructor
  · decide
  · simp +decide [increment_stat, defaultStructure, defaultStats]

/-- C9 (amended): increment_stat preserves the invariant that max streak
dominates correct streak for every stat name other than the
correct-streak counter and every nonnegative amount. -/
theorem srs_C9_invariant_preserved (s : Store) (name : String) (amount : ℤ)
    (hname : name ≠ "correct_streak") (hamt : 0 ≤ amount)
    (hinv : s.stats.correct_streak ≤ s.stats.max_streak) :
    (increment_stat s name amount).stats.correct_streak ≤
      (increment_stat s name amount).stats.max_streak := by
  rw [increment_stat]
  split_ifs with h1 h2 h3
  · exact hinv
  · exact hinv
  · show s.stats.correct_streak ≤ s.stats.max_streak + amount
    omega
  · exact hinv

/-- C9 (amended) witness at the total-reviews counter. -/
theorem srs_C9_invariant_preserved_witness :
    (increment_stat (defaultStructure 0) "total_reviews" 1).stats.correct_streak ≤
      (increment_stat (defaultStructure 0) "total_reviews" 1).stats.max_streak :=
  srs_C9_invariant_preserved (defaultStructure 0) "total_reviews" 1
    (by decide) (by decide) (by decide)

/-- C10: review_card is a deterministic function of the card, the
quality and the day read from the clock: equal inputs give equal
results, the last review of the result is that day, and the next review
is that day plus the resulting interval. -/
theorem srs_C10_deterministic (c₁ c₂ : SRSCard) (q₁ q₂ t₁ t₂ : ℤ)
    (hc : c₁ = c₂) (hq : q₁ = q₂) (ht : t₁ = t₂) :
    review_card c₁ q₁ t₁ = review_card c₂ q₂ t₂ ∧
    (review_card c₁ q₁ t₁).last_review = some t₁ ∧
    (review_card c₁ q₁ t₁).next_review =
      some (t₁ + (review_card c₁ q₁ t₁).interval) := by
  subst hc
  subst hq
  subst ht
  refine ⟨rfl, ?_, ?_⟩
  · by_cases hq : q₁ < 3 <;> simp [review_card, hq]
  · by_cases hq : q₁ < 3 <;> simp [review_card, hq]

/-- C10 witness at the default card, quality 5, day 0. -/
theorem srs_C10_deterministic_witness :
    (review_card defaultCard 5 0).last_review = some 0 :=
  (srs_C10_deterministic defaultCard defaultCard 5 5 0 0 rfl rfl rfl).2.1

end Nippon
